import Mathlib

/-
Verification development for the obsidian-claude-code repository's ACP
client layer.  The definitions below are a shallow embedding of
src/acp-core/adapters/native-client.ts (class NativeAcpClient),
src/acp-core/adapters/zed-adapter.ts (class ZedAcpAdapter) and the
host-supplied file-system abstraction built in src/acpClient.ts
(class ObsidianAcpClient).

Modelling conventions:
- TypeScript `x: T | null` / optional fields become `Option T`.
- Async methods that can throw become `Except String _`; an
  `Except.error` value models an exception propagating to the caller
  (for an async generator: the drain loop rethrows and no further
  events are yielded).
- The mutable fields of a client object become a `ClientState` record;
  each method is a function from the old state (plus the outcomes of
  the RPCs it awaits, supplied as parameters) to the new state and its
  observable outputs.
- JavaScript template-literal number rendering (decimal) is embedded
  as `decimalString` below (fuel-based structural recursion so that it
  reduces in the kernel).
-/

namespace AcpCore

/-- Decimal digit character, as produced by JavaScript number-to-string
conversion: code point 48 + d for a digit d < 10. -/
def digitChar (d : Nat) : Char := Char.ofNat (48 + d)

/-- Most-significant-first decimal digits of a natural number, with
explicit fuel (fuel >= n is always sufficient, see the lemmas below). -/
def natDigitsAux : Nat → Nat → List Nat
  | 0, n => [n]
  | fuel + 1, n =>
    if n < 10 then [n]
    else natDigitsAux fuel (n / 10) ++ [n % 10]

/-- Decimal digits of a natural number (most significant first). -/
def natDigits (n : Nat) : List Nat := natDigitsAux n n

/-- Recover the number from its decimal digit list. -/
def undigits (l : List Nat) : Nat := l.foldl (fun a d => a * 10 + d) 0

/-- Decimal rendering of a natural number, as a JavaScript template
literal renders an integer-valued number. -/
def decimalString (n : Nat) : String := String.mk ((natDigits n).map digitChar)

/-- StopReason union from src/acp-core/interfaces, as used by both
adapters' mapStopReason tables. -/
inductive StopReason where
  | end_turn
  | tool_use
  | max_tokens
  | max_turn_requests
  | refusal
  | cancelled
  deriving DecidableEq, Repr

/-- NativeAcpClient.mapStopReason / ZedAcpAdapter.mapStopReason (the two
private methods have identical bodies): table lookup with end_turn as
the fallback for an unknown wire string. -/
def mapStopReason (reason : String) : StopReason :=
  if reason = "end_turn" then StopReason.end_turn
  else if reason = "tool_use" then StopReason.tool_use
  else if reason = "max_tokens" then StopReason.max_tokens
  else if reason = "max_turn_requests" then StopReason.max_turn_requests
  else if reason = "refusal" then StopReason.refusal
  else if reason = "cancelled" then StopReason.cancelled
  else StopReason.end_turn

/-- ToolCallStatus union from src/acp-core/interfaces. -/
inductive ToolCallStatus where
  | pending
  | in_progress
  | completed
  | failed
  deriving DecidableEq, Repr

/-- NativeAcpClient.mapToolStatus / ZedAcpAdapter.mapToolStatus:
undefined maps to undefined, unknown strings fall back to pending. -/
def mapToolStatus (status : Option String) : Option ToolCallStatus :=
  match status with
  | none => none
  | some s =>
    some (if s = "pending" then ToolCallStatus.pending
      else if s = "in_progress" then ToolCallStatus.in_progress
      else if s = "completed" then ToolCallStatus.completed
      else if s = "failed" then ToolCallStatus.failed
      else ToolCallStatus.pending)

/-- SessionModeState from src/acp-core/interfaces: a record holding the
current mode id. -/
structure SessionModeState where
  modeId : String
  deriving DecidableEq, Repr

/-- SessionMode from src/acp-core/interfaces. -/
structure SessionMode where
  id : String
  name : String
  description : Option String
  deriving DecidableEq, Repr

/-- Session from src/acp-core/interfaces, as constructed by
NativeAcpClient.connect.  The createdAt field (a wall-clock Date) is
omitted; no claim concerns it. -/
structure Session where
  id : String
  cwd : String
  isActive : Bool
  availableModes : List SessionMode
  currentMode : Option SessionModeState
  deriving DecidableEq, Repr

/-- A ContentBlock as inspected by the session-update handlers: the
handlers look only at content.type === "text" and content.text (read
defensively with a fallback to the empty string). -/
inductive ContentBlock where
  | text (text : Option String)
  | other
  deriving DecidableEq, Repr

/-- One entry of a plan notification, source side. -/
structure PlanEntrySrc where
  content : String
  status : String
  priority : Option String
  deriving DecidableEq, Repr

/-- One entry of the plan StreamEvent, as built by handleSessionUpdate. -/
structure PlanEntry where
  id : String
  title : String
  status : String
  priority : Option String
  deriving DecidableEq, Repr

/-- One entry of an available_commands_update notification, source side
(input carries an optional hint). -/
structure CommandSrc where
  name : String
  description : Option String
  input : Option String
  deriving DecidableEq, Repr

/-- One entry of the commands_update StreamEvent. -/
structure CommandInfo where
  name : String
  description : Option String
  input : Option String
  deriving DecidableEq, Repr

/-- The session/update notification payloads dispatched by
handleSessionUpdate's switch on update.sessionUpdate. -/
inductive SessionUpdate where
  | user_message_chunk (content : ContentBlock)
  | agent_message_chunk (content : ContentBlock)
  | agent_thought_chunk (content : ContentBlock)
  | tool_call (toolCallId : String) (title : Option String)
  | tool_call_update (toolCallId : String) (status : Option String)
  | plan (entries : List PlanEntrySrc)
  | current_mode_update (currentModeId : String)
  | available_commands_update (availableCommands : List CommandSrc)
  | session_info_update (title : Option String) (updatedAt : Option Nat)
  | config_option_update (configOptions : List String)
  | unknown
  deriving DecidableEq, Repr

/-- StreamEvent tagged union from src/acp-core/interfaces (the variants
produced by the adapter code modelled here). -/
inductive StreamEvent where
  | message_start (messageId : String)
  | text_delta (text : String)
  | thinking_delta (text : String)
  | tool_call_start (toolCallId : String) (toolName : String) (title : Option String)
  | tool_call_delta (toolCallId : String) (status : Option ToolCallStatus)
  | plan (entries : List PlanEntry)
  | mode_change (mode : SessionModeState)
  | commands_update (commands : List CommandInfo)
  | session_info (title : Option String) (lastUpdated : Option Nat)
  | message_complete (stopReason : StopReason)
  | error (err : String)
  deriving DecidableEq, Repr

/-- The mutable fields of a NativeAcpClient instance.  Boolean fields
record whether the corresponding nullable field is non-null.
hostSession models the Session heap object returned by connect() and
retained by the host: disconnect() mutates it through this.session
before dropping the reference, so the host observes the mutation.
config-options are tracked by their ids only (no claim inspects more).
The permissionHandler and fileSystem config entries are function-typed
and are passed as explicit parameters to the handlers that use them. -/
structure ClientState where
  process : Bool
  connection : Bool
  initResult : Bool
  session : Option Session
  hostSession : Option Session
  closedResolved : Bool
  aborted : Bool
  availableModes : List SessionMode
  currentMode : Option SessionModeState
  configOptions : List String
  sessionCwd : String
  terminals : List String
  terminalIdCounter : Nat
  deriving DecidableEq, Repr

/-- The field values established by the NativeAcpClient constructor. -/
def initialState : ClientState :=
  { process := false
    connection := false
    initResult := false
    session := none
    hostSession := none
    closedResolved := false
    aborted := false
    availableModes := []
    currentMode := none
    configOptions := []
    sessionCwd := ""
    terminals := []
    terminalIdCounter := 0 }

namespace NativeAcpClient

/-- NativeAcpClient.connect, successful path, restricted to the state
fields modelled here.  Parameters stand for the data of the successful
newSession RPC result: sessionId and the optional modes payload (a
list of available modes plus the current mode id).  The code stores
the mode info when present, builds a Session with isActive true, and
stores it in this.session; the same object is returned to the host
(field hostSession). -/
def connect (st : AcpCore.ClientState) (sessionId : String) (cwd : String)
    (modes : Option (List AcpCore.SessionMode × String)) : AcpCore.ClientState :=
  let availableModes :=
    match modes with
    | some (ms, _) => ms
    | none => st.availableModes
  let currentMode :=
    match modes with
    | some (_, cur) => some { modeId := cur }
    | none => st.currentMode
  let s : AcpCore.Session :=
    { id := sessionId
      cwd := cwd
      isActive := true
      availableModes := availableModes
      currentMode := currentMode }
  { st with
    sessionCwd := cwd
    process := true
    connection := true
    initResult := true
    availableModes := availableModes
    currentMode := currentMode
    session := some s
    hostSession := some s }

/-- NativeAcpClient.disconnect: releases all terminals and clears the
map, kills and nulls the process, nulls the connection, sets
session.isActive to false on the retained Session object if one is
attached, then nulls session and initResult.  It is a total function:
no path throws. -/
def disconnect (st : AcpCore.ClientState) : AcpCore.ClientState :=
  { st with
    terminals := []
    process := false
    connection := false
    hostSession :=
      match st.session with
      | some s => some { s with isActive := false }
      | none => st.hostSession
    session := none
    initResult := false }

/-- The process "exit" handler registered in NativeAcpClient.connect:
it resolves the closed promise and aborts the abort controller, and
touches nothing else (in particular neither session nor isActive). -/
def processExit (st : AcpCore.ClientState) : AcpCore.ClientState :=
  { st with closedResolved := true, aborted := true }

/-- NativeAcpClient.isConnected: connection and session both non-null. -/
def isConnected (st : AcpCore.ClientState) : Bool :=
  st.connection && st.session.isSome

/-- NativeAcpClient.getCurrentMode. -/
def getCurrentMode (st : AcpCore.ClientState) : Option AcpCore.SessionModeState :=
  st.currentMode

/-- NativeAcpClient.setMode: throws when connection or session is null,
awaits the setSessionMode RPC (its success supplied as rpcOk; a
rejection propagates and the local state is not updated), then records
currentMode = { modeId }. -/
def setMode (st : AcpCore.ClientState) (modeId : String) (rpcOk : Bool) :
    Except String AcpCore.ClientState :=
  if st.connection = false ∨ st.session = none then
    Except.error "Not connected"
  else if rpcOk = false then
    Except.error "setSessionMode failed"
  else
    Except.ok { st with currentMode := some { modeId := modeId } }

/-- NativeAcpClient.handleSessionUpdate: the switch on
update.sessionUpdate.  Returns the updated client state together with
the list of events pushed through config.onEvent for this
notification (zero or one event). -/
def handleSessionUpdate (st : AcpCore.ClientState) (u : AcpCore.SessionUpdate) :
    AcpCore.ClientState × List AcpCore.StreamEvent :=
  match u with
  | AcpCore.SessionUpdate.user_message_chunk _ => (st, [])
  | AcpCore.SessionUpdate.agent_message_chunk c =>
    match c with
    | AcpCore.ContentBlock.text t => (st, [AcpCore.StreamEvent.text_delta (t.getD "")])
    | AcpCore.ContentBlock.other => (st, [])
  | AcpCore.SessionUpdate.agent_thought_chunk c =>
    match c with
    | AcpCore.ContentBlock.text t => (st, [AcpCore.StreamEvent.thinking_delta (t.getD "")])
    | AcpCore.ContentBlock.other => (st, [])
  | AcpCore.SessionUpdate.tool_call toolCallId title =>
    (st, [AcpCore.StreamEvent.tool_call_start toolCallId (title.getD "unknown") title])
  | AcpCore.SessionUpdate.tool_call_update toolCallId status =>
    (st, [AcpCore.StreamEvent.tool_call_delta toolCallId (AcpCore.mapToolStatus status)])
  | AcpCore.SessionUpdate.plan entries =>
    (st, [AcpCore.StreamEvent.plan (entries.enum.map fun p =>
      { id := "plan-entry-" ++ AcpCore.decimalString p.1
        title := p.2.content
        status := p.2.status
        priority := p.2.priority })])
  | AcpCore.SessionUpdate.current_mode_update currentModeId =>
    ({ st with currentMode := some { modeId := currentModeId } },
      [AcpCore.StreamEvent.mode_change { modeId := currentModeId }])
  | AcpCore.SessionUpdate.available_commands_update availableCommands =>
    (st, [AcpCore.StreamEvent.commands_update (availableCommands.map fun c =>
      { name := c.name, description := c.description, input := c.input })])
  | AcpCore.SessionUpdate.session_info_update title updatedAt =>
    (st, [AcpCore.StreamEvent.session_info title updatedAt])
  | AcpCore.SessionUpdate.config_option_update configOptions =>
    ({ st with configOptions := configOptions }, [])
  | AcpCore.SessionUpdate.unknown => (st, [])

/-- Sequential dispatch of a list of inbound session/update
notifications (the single-threaded event loop processes them in wire
order), collecting the onEvent emissions in order. -/
def processUpdates (st : AcpCore.ClientState) (us : List AcpCore.SessionUpdate) :
    AcpCore.ClientState × List AcpCore.StreamEvent :=
  match us with
  | [] => (st, [])
  | u :: rest =>
    let p := handleSessionUpdate st u
    let r := processUpdates p.1 rest
    (r.1, p.2 ++ r.2)

end NativeAcpClient

/-- Outcome of the awaited prompt RPC for one sendMessage call: the
agent either resolves it with a stopReason string or rejects it (any
thrown or rejected error, carried as its message). -/
inductive PromptOutcome where
  | resolve (stopReason : String)
  | reject (err : String)
  deriving DecidableEq, Repr

/-- One prompt cycle as the environment presents it to the client: the
session/update notifications the agent emits while the prompt RPC is
pending, followed by the RPC's outcome. -/
structure PromptCycle where
  updates : List SessionUpdate
  outcome : PromptOutcome
  deriving DecidableEq, Repr

namespace NativeAcpClient

/-- NativeAcpClient.sendMessage as drained to completion.  The guard
precedes the try block, so a "Not connected" throw yields no events at
all (Except.error).  Otherwise the generator yields message_start with
a timestamped id (now stands for Date.now()), awaits the prompt RPC —
whose session-update notifications are dispatched to
handleSessionUpdate and config.onEvent, not yielded here — and then
yields exactly one of message_complete (RPC resolved) or error (any
error thrown during the cycle, caught by the catch block), after
which the generator body ends. -/
def sendMessage (st : AcpCore.ClientState) (now : Nat) (cycle : AcpCore.PromptCycle) :
    Except String (List AcpCore.StreamEvent) :=
  if st.connection = false ∨ st.session = none then
    Except.error "Not connected"
  else
    Except.ok ([AcpCore.StreamEvent.message_start ("msg-" ++ AcpCore.decimalString now)] ++
      match cycle.outcome with
      | AcpCore.PromptOutcome.resolve r =>
        [AcpCore.StreamEvent.message_complete (AcpCore.mapStopReason r)]
      | AcpCore.PromptOutcome.reject e =>
        [AcpCore.StreamEvent.error e])

/-- The for-await accumulation loop of NativeAcpClient.sendMessageSync:
events.push(event) for each yielded event. -/
def drainLoop (events : List AcpCore.StreamEvent) (rest : List AcpCore.StreamEvent) :
    List AcpCore.StreamEvent :=
  match rest with
  | [] => events
  | e :: r => drainLoop (events ++ [e]) r

/-- NativeAcpClient.sendMessageSync: drains this.sendMessage into an
array (also forwarding each event to config.onEvent) and returns the
array; an exception from the generator propagates. -/
def sendMessageSync (st : AcpCore.ClientState) (now : Nat) (cycle : AcpCore.PromptCycle) :
    Except String (List AcpCore.StreamEvent) :=
  match sendMessage st now cycle with
  | Except.error e => Except.error e
  | Except.ok evs => Except.ok (drainLoop [] evs)

/-- Everything the host observes during one prompt cycle, in event-loop
order: the generator yields message_start, then, while the prompt RPC
is pending, each inbound notification is dispatched through
handleSessionUpdate (whose events reach the host via config.onEvent),
and finally the generator yields its terminal event.  All of this runs
on the single-threaded event loop, so the combined order is exactly
this concatenation. -/
def hostObservation (st : AcpCore.ClientState) (now : Nat) (cycle : AcpCore.PromptCycle) :
    Except String (List AcpCore.StreamEvent) :=
  if st.connection = false ∨ st.session = none then
    Except.error "Not connected"
  else
    Except.ok ([AcpCore.StreamEvent.message_start ("msg-" ++ AcpCore.decimalString now)] ++
      (processUpdates st cycle.updates).2 ++
      match cycle.outcome with
      | AcpCore.PromptOutcome.resolve r =>
        [AcpCore.StreamEvent.message_complete (AcpCore.mapStopReason r)]
      | AcpCore.PromptOutcome.reject e =>
        [AcpCore.StreamEvent.error e])

/-- The terminal-handle id template literal shared by
NativeAcpClient.createTerminal and NativeAcpClient.handleCreateTerminal:
the string terminal-${c} for a counter value c. -/
def mkTerminalId (c : Nat) : String := "terminal-" ++ AcpCore.decimalString c

/-- NativeAcpClient.createTerminal (host-facing): throws when not
connected; otherwise allocates the id terminal-${++terminalIdCounter},
spawns the handle and registers it in this.terminals. -/
def createTerminal (st : AcpCore.ClientState) :
    Except String (String × AcpCore.ClientState) :=
  if isConnected st = false then
    Except.error "Not connected"
  else
    let c := st.terminalIdCounter + 1
    let id := mkTerminalId c
    Except.ok (id, { st with terminalIdCounter := c, terminals := st.terminals ++ [id] })

/-- NativeAcpClient.handleCreateTerminal (inbound terminal/create from
the agent): allocates from the same counter and registers the handle;
no connectivity guard. -/
def handleCreateTerminal (st : AcpCore.ClientState) : String × AcpCore.ClientState :=
  let c := st.terminalIdCounter + 1
  let id := mkTerminalId c
  (id, { st with terminalIdCounter := c, terminals := st.terminals ++ [id] })

end NativeAcpClient

/-- Which endpoint asks for a terminal: the host-facing createTerminal
or the agent's inbound terminal/create request. -/
inductive TerminalOp where
  | host
  | agent
  deriving DecidableEq, Repr

/-- A sequence of terminal creations over one client's lifetime,
returning the final state and the ids of the handles actually created
(a host-facing call made while disconnected throws and creates none). -/
def runTerminalOps : ClientState → List TerminalOp → ClientState × List String
  | st, [] => (st, [])
  | st, TerminalOp.host :: rest =>
    match NativeAcpClient.createTerminal st with
    | Except.error _ => runTerminalOps st rest
    | Except.ok (id, st1) =>
      let r := runTerminalOps st1 rest
      (r.1, id :: r.2)
  | st, TerminalOp.agent :: rest =>
    let p := NativeAcpClient.handleCreateTerminal st
    let r := runTerminalOps p.2 rest
    (r.1, p.1 :: r.2)

/-- A tool-call location as carried by an inbound requestPermission
request (acp.ToolCallLocation). -/
structure ToolCallLocation where
  path : String
  line : Option Nat
  deriving DecidableEq, Repr

/-- The toolCall summary of an inbound requestPermission request, the
fields the mediator reads. -/
structure AcpToolCall where
  toolCallId : String
  title : Option String
  locations : Option (List ToolCallLocation)
  deriving DecidableEq, Repr

/-- One permission option of an inbound requestPermission request
(acp.PermissionOption): kind is one of allow_once, allow_always,
reject_once, reject_always on the wire. -/
structure AcpPermissionOption where
  optionId : String
  name : String
  kind : String
  deriving DecidableEq, Repr

/-- acp.RequestPermissionRequest, the fields the mediator reads. -/
structure RequestPermissionRequest where
  toolCall : AcpToolCall
  options : List AcpPermissionOption
  deriving DecidableEq, Repr

/-- The tool-call view handed to the host permission handler
(interfaces' ToolCall as built by handleRequestPermission; the empty
input object is omitted). -/
structure ToolCallView where
  id : String
  name : String
  title : Option String
  status : String
  locations : Option (List String)
  deriving DecidableEq, Repr

/-- One option as handed to the host permission handler. -/
structure PermissionOption where
  optionId : String
  name : String
  kind : String
  deriving DecidableEq, Repr

/-- PermissionRequest from src/acp-core/interfaces, as built by
handleRequestPermission for the host handler. -/
structure PermissionRequest where
  toolCall : ToolCallView
  options : List PermissionOption
  deriving DecidableEq, Repr

/-- The host permission handler's response: granted plus an optional
explicitly chosen optionId. -/
structure PermissionResponse where
  granted : Bool
  optionId : Option String
  deriving DecidableEq, Repr

/-- The outcome field of acp.RequestPermissionResponse. -/
inductive RequestPermissionOutcome where
  | cancelled
  | selected (optionId : String)
  deriving DecidableEq, Repr

/-- acp.RequestPermissionResponse. -/
structure RequestPermissionResponse where
  outcome : RequestPermissionOutcome
  deriving DecidableEq, Repr

/-- acp.ReadTextFileResponse. -/
structure ReadTextFileResponse where
  content : String
  deriving DecidableEq, Repr

end AcpCore

namespace AcpCore

namespace NativeAcpClient

/-- The request conversion inside NativeAcpClient.handleRequestPermission
(identical in ZedAcpAdapter.handleRequestPermission): locations are
flattened to their paths, name falls back to "unknown", status is
pending, and the options are copied field by field. -/
def toPermissionRequest (params : RequestPermissionRequest) : PermissionRequest :=
  { toolCall :=
      { id := params.toolCall.toolCallId
        name := params.toolCall.title.getD "unknown"
        title := params.toolCall.title
        status := "pending"
        locations := params.toolCall.locations.map (fun ls => ls.map (fun l => l.path)) }
    options := params.options.map (fun opt =>
      { optionId := opt.optionId, name := opt.name, kind := opt.kind }) }

/-- NativeAcpClient.handleRequestPermission (ZedAcpAdapter's version is
identical): with no registered handler it auto-denies with outcome
cancelled; otherwise it converts the request, awaits the handler, and
on granted selects response.optionId, else the first allow_once
option's id, else the first option's id, else the literal "allow"; on
not granted it returns outcome cancelled.  The second component of the
result records whether the host handler was invoked. -/
def handleRequestPermission
    (permissionHandler : Option (PermissionRequest → PermissionResponse))
    (params : RequestPermissionRequest) : RequestPermissionResponse × Bool :=
  match permissionHandler with
  | none => ({ outcome := RequestPermissionOutcome.cancelled }, false)
  | some handler =>
    let request := toPermissionRequest params
    let response := handler request
    if response.granted then
      let allowOption := params.options.find? (fun opt => opt.kind == "allow_once")
      let optionId :=
        match response.optionId with
        | some v => v
        | none =>
          match allowOption with
          | some o => o.optionId
          | none =>
            match params.options.head? with
            | some o => o.optionId
            | none => "allow"
      ({ outcome := RequestPermissionOutcome.selected optionId }, true)
    else
      ({ outcome := RequestPermissionOutcome.cancelled }, true)

/-- NativeAcpClient.handleReadTextFile.  The on-disk filesystem is a map
from path to the contents of the file when it exists (existsSync is
its domain).  When config.fileSystem is supplied its readFile is used;
otherwise a nonexistent path returns empty content and an existing
path returns its contents. -/
def handleReadTextFile (fileSystemReadFile : Option (String → String))
    (fs : String → Option String) (path : String) : ReadTextFileResponse :=
  match fileSystemReadFile with
  | some readF => { content := readF path }
  | none =>
    match fs path with
    | none => { content := "" }
    | some content => { content := content }

end NativeAcpClient

namespace ZedAcpAdapter

/-- ZedAcpAdapter.sendMessage as drained to completion.  Unlike the
native client it yields no message_start: the guard throws when not
connected, then the generator awaits the prompt RPC and yields exactly
one of message_complete or error. -/
def sendMessage (connection : Bool) (session : Option Session) (cycle : PromptCycle) :
    Except String (List StreamEvent) :=
  if connection = false ∨ session = none then
    Except.error "Not connected"
  else
    Except.ok
      (match cycle.outcome with
      | PromptOutcome.resolve r => [StreamEvent.message_complete (mapStopReason r)]
      | PromptOutcome.reject e => [StreamEvent.error e])

end ZedAcpAdapter

namespace ObsidianAcpClient

/-- The fileSystem.readFile closure built in ObsidianAcpClient.connect
(src/acpClient.ts): a nonexistent path yields the empty string,
otherwise the file's contents are read. -/
def readFile (fs : String → Option String) (path : String) : String :=
  match fs path with
  | none => ""
  | some content => content

end ObsidianAcpClient

/-- Events of the two terminal variants a drained prompt cycle can end
in: message_complete or error. -/
def isTerminalEvent : StreamEvent → Bool
  | StreamEvent.message_complete _ => true
  | StreamEvent.error _ => true
  | _ => false

/-- The terminal event a prompt cycle's outcome produces (the two yield
sites of the adapters' try/catch). -/
def terminalEventOf : PromptOutcome → StreamEvent
  | PromptOutcome.resolve r => StreamEvent.message_complete (mapStopReason r)
  | PromptOutcome.reject e => StreamEvent.error e

/-- A connected example state: the constructor state after a successful
connect with session id sess-1 in /vault and no modes payload. -/
def exConnected : ClientState :=
  NativeAcpClient.connect initialState "sess-1" "/vault" none

/-- The Session object held by exConnected. -/
def exSession : Session :=
  { id := "sess-1"
    cwd := "/vault"
    isActive := true
    availableModes := []
    currentMode := none }

/-- The prompt cycle of the spec's streaming scenario: two agent
message chunks Hel and lo, then the prompt resolves with end_turn. -/
def exCycleHelLo : PromptCycle :=
  { updates :=
      [SessionUpdate.agent_message_chunk (ContentBlock.text (some "Hel")),
        SessionUpdate.agent_message_chunk (ContentBlock.text (some "lo"))]
    outcome := PromptOutcome.resolve "end_turn" }

/-- The permission request of the spec's scenario: options a
(allow_once) and b (reject_once). -/
def exPermissionParams : RequestPermissionRequest :=
  { toolCall := { toolCallId := "tc-1", title := some "Edit file", locations := none }
    options :=
      [{ optionId := "a", name := "Allow", kind := "allow_once" },
        { optionId := "b", name := "Reject", kind := "reject_once" }] }

/-- A permission request whose only option is a reject option (for the
fallback analysis of the granted-without-optionId path). -/
def exRejectOnlyParams : RequestPermissionRequest :=
  { toolCall := { toolCallId := "tc-2", title := none, locations := none }
    options := [{ optionId := "b", name := "Reject", kind := "reject_once" }] }

/-- A host permission handler that denies every request. -/
def exDenyHandler : PermissionRequest → PermissionResponse :=
  fun _ => { granted := false, optionId := none }

/-- A host permission handler that grants every request without naming
an option. -/
def exGrantNoIdHandler : PermissionRequest → PermissionResponse :=
  fun _ => { granted := true, optionId := none }

/-- An on-disk filesystem with no files at all. -/
def exEmptyFs : String → Option String := fun _ => none

end AcpCore

namespace AcpCore

theorem undigits_natDigitsAux : ∀ (fuel n : Nat), n ≤ fuel →
    undigits (natDigitsAux fuel n) = n := by
  intro fuel
  induction fuel with
  | zero =>
    intro n _
    simp [natDigitsAux, undigits, List.foldl]
  | succ fuel ih =>
    intro n hn
    by_cases h : n < 10
    · simp [natDigitsAux, h, undigits, List.foldl]
    · have h10 : 10 ≤ n := Nat.le_of_not_lt h
      have hdiv : n / 10 ≤ fuel := by
        have hlt : n / 10 < n := Nat.div_lt_self (by omega) (by omega)
        omega
      have hA := ih (n / 10) hdiv
      simp only [natDigitsAux, if_neg h]
      unfold undigits at hA ⊢
      rw [List.foldl_append]
      simp only [List.foldl]
      rw [hA]
      have hmod := Nat.div_add_mod n 10
      omega

theorem undigits_natDigits (n : Nat) : undigits (natDigits n) = n :=
  undigits_natDigitsAux n n (Nat.le_refl n)

theorem natDigitsAux_lt_ten : ∀ (fuel n : Nat), n ≤ fuel →
    ∀ d ∈ natDigitsAux fuel n, d < 10 := by
  intro fuel
  induction fuel with
  | zero =>
    intro n hn d hd
    simp [natDigitsAux] at hd
    omega
  | succ fuel ih =>
    intro n hn d hd
    by_cases h : n < 10
    · simp [natDigitsAux, h] at hd
      omega
    · simp only [natDigitsAux, if_neg h, List.mem_append] at hd
      rcases hd with hd | hd
      · have hdiv : n / 10 ≤ fuel := by
          have hlt : n / 10 < n := Nat.div_lt_self (by omega) (by omega)
          omega
        exact ih (n / 10) hdiv d hd
      · simp at hd
        omega

theorem natDigits_lt_ten (n : Nat) : ∀ d ∈ natDigits n, d < 10 :=
  natDigitsAux_lt_ten n n (Nat.le_refl n)

theorem digitChar_inj_lt : ∀ d, d < 10 → ∀ e, e < 10 →
    digitChar d = digitChar e → d = e := by decide

theorem map_digitChar_inj : ∀ (l1 : List Nat), (∀ d ∈ l1, d < 10) →
    ∀ (l2 : List Nat), (∀ d ∈ l2, d < 10) →
    l1.map digitChar = l2.map digitChar → l1 = l2 := by
  intro l1
  induction l1 with
  | nil =>
    intro _ l2 _ h
    cases l2 <;> simp_all
  | cons a t ih =>
    intro h1 l2 h2 hmap
    cases l2 with
    | nil => simp at hmap
    | cons b t2 =>
      simp only [List.map_cons, List.cons.injEq] at hmap
      have ha : a < 10 := h1 a (by simp)
      have hb : b < 10 := h2 b (by simp)
      have hab : a = b := digitChar_inj_lt a ha b hb hmap.1
      subst hab
      have ht : t = t2 :=
        ih (fun d hd => h1 d (by simp [hd])) t2 (fun d hd => h2 d (by simp [hd])) hmap.2
      simp [ht]

theorem decimalString_inj (m n : Nat) (h : decimalString m = decimalString n) : m = n := by
  have hl : (natDigits m).map digitChar = (natDigits n).map digitChar := by
    have hd := congrArg String.data h
    simpa [decimalString] using hd
  have hdig : natDigits m = natDigits n :=
    map_digitChar_inj (natDigits m) (natDigits_lt_ten m) (natDigits n) (natDigits_lt_ten n) hl
  have := congrArg undigits hdig
  rwa [undigits_natDigits, undigits_natDigits] at this

theorem mkTerminalId_inj (m n : Nat)
    (h : NativeAcpClient.mkTerminalId m = NativeAcpClient.mkTerminalId n) : m = n := by
  unfold NativeAcpClient.mkTerminalId at h
  have hd := congrArg String.data h
  simp only [String.data_append] at hd
  have hdec : (decimalString m).data = (decimalString n).data :=
    List.append_cancel_left hd
  exact decimalString_inj m n (String.ext hdec)

end AcpCore

namespace AcpCore

theorem runTerminalOps_mem : ∀ (ops : List TerminalOp) (st : ClientState) (id : String),
    id ∈ (runTerminalOps st ops).2 →
    ∃ n, st.terminalIdCounter < n ∧ id = NativeAcpClient.mkTerminalId n := by
  intro ops
  induction ops with
  | nil =>
    intro st id h
    simp [runTerminalOps] at h
  | cons op rest ih =>
    intro st id h
    cases op with
    | host =>
      by_cases hc : NativeAcpClient.isConnected st = false
      · simp only [runTerminalOps, NativeAcpClient.createTerminal, hc, if_true] at h
        exact ih st id h
      · simp only [runTerminalOps, NativeAcpClient.createTerminal, hc, if_false,
          List.mem_cons] at h
        cases h with
        | head => exact ⟨st.terminalIdCounter + 1, by omega, rfl⟩
        | tail _ h =>
          obtain ⟨n, hn, hid⟩ := ih _ _ h
          have hn2 : st.terminalIdCounter + 1 < n := hn
          exact ⟨n, by omega, hid⟩
    | agent =>
      simp only [runTerminalOps, NativeAcpClient.handleCreateTerminal] at h
      cases h with
      | head => exact ⟨st.terminalIdCounter + 1, by omega, rfl⟩
      | tail _ h =>
        obtain ⟨n, hn, hid⟩ := ih _ _ h
        have hn2 : st.terminalIdCounter + 1 < n := hn
        exact ⟨n, by omega, hid⟩

theorem runTerminalOps_nodup : ∀ (ops : List TerminalOp) (st : ClientState),
    ((runTerminalOps st ops).2).Nodup := by
  intro ops
  induction ops with
  | nil =>
    intro st
    simp [runTerminalOps]
  | cons op rest ih =>
    intro st
    cases op with
    | host =>
      by_cases hc : NativeAcpClient.isConnected st = false
      · simp only [runTerminalOps, NativeAcpClient.createTerminal, hc, if_true]
        exact ih st
      · simp only [runTerminalOps, NativeAcpClient.createTerminal, hc, if_false]
        refine List.nodup_cons.mpr ⟨?_, ih _⟩
        intro hmem
        obtain ⟨n, hn, hid⟩ := runTerminalOps_mem rest _ _ hmem
        have hn2 : st.terminalIdCounter + 1 < n := hn
        have heq := mkTerminalId_inj _ _ hid
        omega
    | agent =>
      simp only [runTerminalOps, NativeAcpClient.handleCreateTerminal]
      refine List.nodup_cons.mpr ⟨?_, ih _⟩
      intro hmem
      obtain ⟨n, hn, hid⟩ := runTerminalOps_mem rest _ _ hmem
      have hn2 : st.terminalIdCounter + 1 < n := hn
      have heq := mkTerminalId_inj _ _ hid
      omega

end AcpCore

namespace AcpCore

theorem drainLoop_eq : ∀ (rest acc : List StreamEvent),
    NativeAcpClient.drainLoop acc rest = acc ++ rest := by
  intro rest
  induction rest with
  | nil =>
    intro acc
    simp [NativeAcpClient.drainLoop]
  | cons e r ih =>
    intro acc
    simp [NativeAcpClient.drainLoop, ih]

theorem processUpdates_text_chunks : ∀ (ts : List String) (st : ClientState),
    NativeAcpClient.processUpdates st
      (ts.map fun t => SessionUpdate.agent_message_chunk (ContentBlock.text (some t))) =
    (st, ts.map StreamEvent.text_delta) := by
  intro ts
  induction ts with
  | nil =>
    intro st
    simp [NativeAcpClient.processUpdates]
  | cons t rest ih =>
    intro st
    simp [NativeAcpClient.processUpdates, NativeAcpClient.handleSessionUpdate, ih st]

/-- C1 counterexample: in the prompt cycle of the claim (chunks Hel and
lo, then the prompt resolves with end_turn), the drained sendMessage
event sequence of NativeAcpClient is message_start followed by
message_complete only; it contains no text_delta event, so the host
draining that sequence does not observe text_delta Hel there. -/
theorem sendMessage_sequence_lacks_text_delta :
    NativeAcpClient.sendMessage exConnected 0 exCycleHelLo =
      Except.ok [StreamEvent.message_start "msg-0",
        StreamEvent.message_complete StopReason.end_turn] ∧
    StreamEvent.text_delta "Hel" ∉
      [StreamEvent.message_start "msg-0",
        StreamEvent.message_complete StopReason.end_turn] := by
  constructor
  · rfl
  · decide

/-- C1 (amended): for a connected client, a prompt cycle of
agent_message_chunk text notifications followed by a prompt resolution
is observed by the host, in event-loop order, as message_start, then
one text_delta per chunk in arrival order delivered through the
config.onEvent callback (handleSessionUpdate), then message_complete
with the mapped stop reason as the final event of the drained
sendMessage sequence — no reordering or batching. -/
theorem streaming_order_preserved (st : ClientState) (now : Nat)
    (ts : List String) (r : String)
    (h : NativeAcpClient.isConnected st = true) :
    NativeAcpClient.hostObservation st now
      { updates := ts.map fun t => SessionUpdate.agent_message_chunk (ContentBlock.text (some t))
        outcome := PromptOutcome.resolve r } =
    Except.ok ([StreamEvent.message_start ("msg-" ++ decimalString now)] ++
      ts.map StreamEvent.text_delta ++
      [StreamEvent.message_complete (mapStopReason r)]) := by
  have hg : ¬(st.connection = false ∨ st.session = none) := by
    unfold NativeAcpClient.isConnected at h
    rw [Bool.and_eq_true] at h
    intro hor
    cases hor with
    | inl h1 => rw [h1] at h; exact Bool.false_ne_true h.1
    | inr h2 => rw [h2] at h; exact Bool.false_ne_true h.2
  unfold NativeAcpClient.hostObservation
  rw [if_neg hg, processUpdates_text_chunks]

/-- C1 witness: the claim's concrete cycle observed through
streaming_order_preserved at the connected example state. -/
theorem streaming_order_preserved_witness :
    NativeAcpClient.isConnected exConnected = true ∧
    NativeAcpClient.hostObservation exConnected 0 exCycleHelLo =
      Except.ok [StreamEvent.message_start "msg-0", StreamEvent.text_delta "Hel",
        StreamEvent.text_delta "lo", StreamEvent.message_complete StopReason.end_turn] :=
  ⟨rfl, streaming_order_preserved exConnected 0 ["Hel", "lo"] "end_turn" rfl⟩

end AcpCore

namespace AcpCore

/-- C2 counterexample: a sendMessage call made while not connected
(the constructor state) throws Not connected when drained: the guard
precedes the try block, so no event is yielded at all and the drained
sequence ends in no terminal event. -/
theorem sendMessage_disconnected_throws :
    NativeAcpClient.sendMessage initialState 0 exCycleHelLo =
      Except.error "Not connected" ∧
    ZedAcpAdapter.sendMessage false none exCycleHelLo =
      Except.error "Not connected" := ⟨rfl, rfl⟩

/-- C2 (amended): for every sendMessage call whose drain yields an
event list (the connected case), that list contains exactly one
terminal event, and it is the final element: message_complete with the
mapped stop reason when the prompt RPC resolves, error when it rejects
or anything throws during the cycle.  This holds for both
NativeAcpClient and ZedAcpAdapter. -/
theorem sendMessage_one_terminal_event (st : ClientState) (now : Nat)
    (cycle : PromptCycle) (connection : Bool) (session : Option Session)
    (evs zevs : List StreamEvent) :
    (NativeAcpClient.sendMessage st now cycle = Except.ok evs →
      evs.countP isTerminalEvent = 1 ∧
      evs.getLast? = some (terminalEventOf cycle.outcome)) ∧
    (ZedAcpAdapter.sendMessage connection session cycle = Except.ok zevs →
      zevs.countP isTerminalEvent = 1 ∧
      zevs.getLast? = some (terminalEventOf cycle.outcome)) := by
  constructor
  · intro h
    unfold NativeAcpClient.sendMessage at h
    by_cases hg : st.connection = false ∨ st.session = none
    · rw [if_pos hg] at h
      exact absurd h (by simp)
    · rw [if_neg hg] at h
      cases hout : cycle.outcome with
      | resolve r =>
        rw [hout] at h
        have hevs : _ = evs := Except.ok.inj h
        subst hevs
        constructor
        · simp [List.countP_cons, isTerminalEvent]
        · simp [terminalEventOf]
      | reject e =>
        rw [hout] at h
        have hevs : _ = evs := Except.ok.inj h
        subst hevs
        constructor
        · simp [List.countP_cons, isTerminalEvent]
        · simp [terminalEventOf]
  · intro h
    unfold ZedAcpAdapter.sendMessage at h
    by_cases hg : connection = false ∨ session = none
    · rw [if_pos hg] at h
      exact absurd h (by simp)
    · rw [if_neg hg] at h
      cases hout : cycle.outcome with
      | resolve r =>
        rw [hout] at h
        have hevs : _ = zevs := Except.ok.inj h
        subst hevs
        constructor
        · simp [List.countP_cons, isTerminalEvent]
        · simp [terminalEventOf]
      | reject e =>
        rw [hout] at h
        have hevs : _ = zevs := Except.ok.inj h
        subst hevs
        constructor
        · simp [List.countP_cons, isTerminalEvent]
        · simp [terminalEventOf]

/-- C2 witness: the connected example state with the spec's cycle, for
both adapters. -/
theorem sendMessage_one_terminal_event_witness :
    NativeAcpClient.sendMessage exConnected 0 exCycleHelLo =
      Except.ok [StreamEvent.message_start "msg-0",
        StreamEvent.message_complete StopReason.end_turn] ∧
    ([StreamEvent.message_start "msg-0",
      StreamEvent.message_complete StopReason.end_turn].countP isTerminalEvent = 1 ∧
      [StreamEvent.message_start "msg-0",
        StreamEvent.message_complete StopReason.end_turn].getLast? =
        some (terminalEventOf exCycleHelLo.outcome)) :=
  ⟨rfl,
    (sendMessage_one_terminal_event exConnected 0 exCycleHelLo true (some exSession)
      [StreamEvent.message_start "msg-0",
        StreamEvent.message_complete StopReason.end_turn] []).1 rfl⟩

/-- C3 counterexample: from the connected example state, the subprocess
exit handler resolves the closed promise but leaves the host-held
Session object's isActive flag true, contradicting the claim that
isActive is false after the subprocess exits. -/
theorem processExit_leaves_isActive_true :
    ((NativeAcpClient.processExit exConnected).hostSession.map Session.isActive) =
      some true ∧
    (NativeAcpClient.processExit exConnected).closedResolved = true := by
  constructor
  · decide
  · decide

/-- C3 (amended): the Session is created with isActive true by connect,
and isActive becomes false exactly when disconnect() runs: disconnect
flips the host-held Session object's flag to false and leaves the
client disconnected, while the subprocess-exit handler resolves the
closed promise and fires the abort signal but leaves the session
(and its isActive flag) untouched, so isActive stays true until
disconnect() is called. -/
theorem isActive_lifecycle (st : ClientState) (s : Session)
    (h : st.session = some s) :
    (NativeAcpClient.disconnect st).hostSession.map Session.isActive = some false ∧
    NativeAcpClient.isConnected (NativeAcpClient.disconnect st) = false ∧
    (NativeAcpClient.processExit st).hostSession = st.hostSession ∧
    (NativeAcpClient.processExit st).session = st.session ∧
    (NativeAcpClient.processExit st).closedResolved = true ∧
    (NativeAcpClient.processExit st).aborted = true ∧
    (∀ sessionId cwd modes,
      ((NativeAcpClient.connect st sessionId cwd modes).hostSession.map Session.isActive) =
        some true) := by
  refine ⟨?_, ?_, rfl, rfl, rfl, rfl, ?_⟩
  · simp [NativeAcpClient.disconnect, h]
  · simp [NativeAcpClient.isConnected, NativeAcpClient.disconnect]
  · intro sessionId cwd modes
    cases modes <;> simp [NativeAcpClient.connect]

/-- C3 witness: the lifecycle facts at the connected example state. -/
theorem isActive_lifecycle_witness :
    exConnected.session = some exSession ∧
    ((NativeAcpClient.disconnect exConnected).hostSession.map Session.isActive =
        some false ∧
      NativeAcpClient.isConnected (NativeAcpClient.disconnect exConnected) = false) :=
  ⟨rfl,
    ⟨(isActive_lifecycle exConnected exSession rfl).1,
      (isActive_lifecycle exConnected exSession rfl).2.1⟩⟩

end AcpCore

namespace AcpCore

/-- C4: for every inbound requestPermission call, the mediator responds
with outcome cancelled both when no permission handler is registered
(and then the host handler is not invoked at all: the invoked flag is
false) and when the registered handler returns granted false. -/
theorem permission_denied_is_cancelled (params : RequestPermissionRequest)
    (handler : PermissionRequest → PermissionResponse) :
    NativeAcpClient.handleRequestPermission none params =
      ({ outcome := RequestPermissionOutcome.cancelled }, false) ∧
    ((handler (NativeAcpClient.toPermissionRequest params)).granted = false →
      NativeAcpClient.handleRequestPermission (some handler) params =
        ({ outcome := RequestPermissionOutcome.cancelled }, true)) := by
  constructor
  · rfl
  · intro h
    unfold NativeAcpClient.handleRequestPermission
    simp [h]

/-- C4 witness: the spec's scenario, options a (allow_once) and b
(reject_once) with a handler answering granted false, plus the
handlerless case. -/
theorem permission_denied_is_cancelled_witness :
    (exDenyHandler (NativeAcpClient.toPermissionRequest exPermissionParams)).granted =
      false ∧
    NativeAcpClient.handleRequestPermission (some exDenyHandler) exPermissionParams =
      ({ outcome := RequestPermissionOutcome.cancelled }, true) ∧
    NativeAcpClient.handleRequestPermission none exPermissionParams =
      ({ outcome := RequestPermissionOutcome.cancelled }, false) :=
  ⟨rfl,
    (permission_denied_is_cancelled exPermissionParams exDenyHandler).2 rfl,
    (permission_denied_is_cancelled exPermissionParams exDenyHandler).1⟩

/-- C5: disconnect() is a total function (no path throws), and after
one call and after a second back-to-back call isConnected() is false:
the second call finds no terminals, a null process and a null session
and harmlessly re-clears everything. -/
theorem disconnect_idempotent (st : ClientState) :
    NativeAcpClient.isConnected (NativeAcpClient.disconnect st) = false ∧
    NativeAcpClient.isConnected
      (NativeAcpClient.disconnect (NativeAcpClient.disconnect st)) = false := by
  constructor
  · simp [NativeAcpClient.isConnected, NativeAcpClient.disconnect]
  · simp [NativeAcpClient.isConnected, NativeAcpClient.disconnect]

/-- C6: a successful setMode(id) — connected, and the setSessionMode
RPC resolved — followed immediately by getCurrentMode() returns the
mode state with modeId id. -/
theorem setMode_getCurrentMode_roundTrip (st : ClientState) (modeId : String)
    (rpcOk : Bool) (st1 : ClientState)
    (h : NativeAcpClient.setMode st modeId rpcOk = Except.ok st1) :
    NativeAcpClient.getCurrentMode st1 = some { modeId := modeId } := by
  unfold NativeAcpClient.setMode at h
  by_cases h1 : st.connection = false ∨ st.session = none
  · rw [if_pos h1] at h
    exact absurd h (by simp)
  · rw [if_neg h1] at h
    by_cases h2 : rpcOk = false
    · rw [if_pos h2] at h
      exact absurd h (by simp)
    · rw [if_neg h2] at h
      have hst : _ = st1 := Except.ok.inj h
      subst hst
      rfl

/-- C6 witness: setMode at the connected example state with a resolving
RPC. -/
theorem setMode_getCurrentMode_roundTrip_witness :
    NativeAcpClient.setMode exConnected "plan" true =
      Except.ok { exConnected with currentMode := some { modeId := "plan" } } ∧
    NativeAcpClient.getCurrentMode
      { exConnected with currentMode := some { modeId := "plan" } } =
      some { modeId := "plan" } :=
  ⟨rfl, setMode_getCurrentMode_roundTrip exConnected "plan" true _ rfl⟩

/-- C7: sendMessageSync returns exactly the event list that draining
the lazy sendMessage sequence yields, in the same order, and
propagates the same exception when the sequence throws. -/
theorem sendMessageSync_drains_sendMessage (st : ClientState) (now : Nat)
    (cycle : PromptCycle) :
    NativeAcpClient.sendMessageSync st now cycle =
      NativeAcpClient.sendMessage st now cycle := by
  unfold NativeAcpClient.sendMessageSync
  cases hres : NativeAcpClient.sendMessage st now cycle with
  | error e => rfl
  | ok evs => simp [drainLoop_eq]

/-- C8: every terminal handle id — whether allocated by the host-facing
createTerminal or by the agent's inbound terminal/create request — is
the rendering of a fresh value of the single per-client counter, so
over any sequence of creations in one client's lifetime no two handles
receive the same id. -/
theorem terminal_ids_never_reused (st : ClientState) (ops : List TerminalOp) :
    ((runTerminalOps st ops).2).Nodup :=
  runTerminalOps_nodup ops st

/-- C9: reading a nonexistent path returns empty content rather than
throwing, both in handleReadTextFile's default local-filesystem branch
and when the host-supplied file-system abstraction built by
ObsidianAcpClient.connect is installed. -/
theorem readTextFile_missing_path_empty (fs : String → Option String)
    (path : String) (h : fs path = none) :
    NativeAcpClient.handleReadTextFile none fs path = { content := "" } ∧
    NativeAcpClient.handleReadTextFile (some (ObsidianAcpClient.readFile fs)) fs path =
      { content := "" } := by
  constructor
  · simp [NativeAcpClient.handleReadTextFile, h]
  · simp [NativeAcpClient.handleReadTextFile, ObsidianAcpClient.readFile, h]

/-- C9 witness: a missing note path on an empty filesystem. -/
theorem readTextFile_missing_path_empty_witness :
    exEmptyFs "/vault/missing.md" = none ∧
    NativeAcpClient.handleReadTextFile none exEmptyFs "/vault/missing.md" =
      { content := "" } ∧
    NativeAcpClient.handleReadTextFile (some (ObsidianAcpClient.readFile exEmptyFs))
      exEmptyFs "/vault/missing.md" = { content := "" } :=
  ⟨rfl,
    (readTextFile_missing_path_empty exEmptyFs "/vault/missing.md" rfl).1,
    (readTextFile_missing_path_empty exEmptyFs "/vault/missing.md" rfl).2⟩

/-- C10: when a registered handler returns granted true with no
optionId, the selected optionId falls back in order to the first
allow_once option, else the first option of the request's list (which
may be a reject option), else the literal "allow" when the options
list is empty — so the selected id need not be an allow-kind option
nor a member of the request's options. -/
theorem grant_without_optionId_fallback (params : RequestPermissionRequest)
    (handler : PermissionRequest → PermissionResponse)
    (h : handler (NativeAcpClient.toPermissionRequest params) =
      { granted := true, optionId := none }) :
    (∀ opt, params.options.find? (fun o => o.kind == "allow_once") = some opt →
      NativeAcpClient.handleRequestPermission (some handler) params =
        ({ outcome := RequestPermissionOutcome.selected opt.optionId }, true)) ∧
    (params.options.find? (fun o => o.kind == "allow_once") = none →
      ∀ o rest, params.options = o :: rest →
        NativeAcpClient.handleRequestPermission (some handler) params =
          ({ outcome := RequestPermissionOutcome.selected o.optionId }, true)) ∧
    (params.options = [] →
      NativeAcpClient.handleRequestPermission (some handler) params =
        ({ outcome := RequestPermissionOutcome.selected "allow" }, true)) := by
  refine ⟨?_, ?_, ?_⟩
  · intro opt hfind
    unfold NativeAcpClient.handleRequestPermission
    simp [h, hfind]
  · intro hfind o rest hopts
    rw [hopts] at hfind
    unfold NativeAcpClient.handleRequestPermission
    simp [h, hopts, hfind]
  · intro hopts
    unfold NativeAcpClient.handleRequestPermission
    simp [h, hopts]

/-- C10 witness: a request whose only option is reject_once with a
granting handler that names no option: the fallback selects the reject
option's id b. -/
theorem grant_without_optionId_fallback_witness :
    exGrantNoIdHandler (NativeAcpClient.toPermissionRequest exRejectOnlyParams) =
      { granted := true, optionId := none } ∧
    NativeAcpClient.handleRequestPermission (some exGrantNoIdHandler) exRejectOnlyParams =
      ({ outcome := RequestPermissionOutcome.selected "b" }, true) :=
  ⟨rfl,
    (grant_without_optionId_fallback exRejectOnlyParams exGrantNoIdHandler rfl).2.1
      rfl { optionId := "b", name := "Reject", kind := "reject_once" } [] rfl⟩

end AcpCore
